import Mathlib

/-!
Shallow embedding of the `validation` Lua module (src/validation.go) of the
go-lua-validation repository.

Script values flowing across the host boundary are modelled by the closed sum
type `LValue` (the `LValue` of gopher-lua: nil, boolean, number, string, table,
plus an `other` bucket for functions/userdata).  Lua numbers (Go `float64`)
are modelled as exact rationals; a table is modelled by its list of key/value
entries (the entries `LTable.ForEach` would enumerate).  Each exported
function takes the Lua argument list and either returns its Lua return values
or aborts with a `LuaError` (the abrupt script error raised by the host
argument marshaling helpers `CheckAny` / `CheckString` / `CheckInt` /
`CheckNumber`).

External collaborators (`net/mail`, `regexp`) are black boxes per the spec and
appear as parameters (`Collaborators`); `net/url.ParseRequestURI` is modelled
concretely from the spec so that its documented verdicts can be checked.
-/

namespace LuaValidation

/-- A script value: one variant per supported script value kind. -/
inductive LValue where
  | nil
  | boolean (b : Bool)
  | number (q : ℚ)
  | str (s : String)
  | table (entries : List (LValue × LValue))
  | other

/-- Runtime type tags of script values. -/
inductive Tag where
  | nil
  | boolean
  | number
  | str
  | table
  | other
deriving DecidableEq

/-- The runtime type tag carried by a script value. -/
def LValue.tag : LValue → Tag
  | .nil => .nil
  | .boolean _ => .boolean
  | .number _ => .number
  | .str _ => .str
  | .table _ => .table
  | .other => .other

/-- Abrupt script errors raised by the host argument marshaling
(`ArgError` / `TypeError` in gopher-lua). -/
inductive LuaError where
  | argError (n : Nat) (msg : String)
  | typeError (n : Nat) (expected : String)

/-- True exactly when the call aborted with a `LuaError`. -/
def errored (r : Except LuaError (List LValue)) : Bool :=
  match r with
  | .error _ => true
  | .ok _ => false

/-- Lua argument access: argument `n` (1-based); a missing argument reads
as nil, as `LState.Get` does beyond the stack top. -/
def argGet (args : List LValue) (n : Nat) : LValue :=
  args.getD (n - 1) .nil

/-- Modelled from the spec: the gopher-lua helper `LState.CheckAny` is host code not in
this repository; per the spec it accepts an argument of any type (including an
explicitly passed nil) and raises an arity error only when no argument was
passed at that position. -/
def checkAny (n : Nat) (args : List LValue) : Except LuaError LValue :=
  if n ≤ args.length then .ok (argGet args n)
  else .error (.argError n "value expected")

/-- Modelled from the spec: the gopher-lua helper `LState.CheckString` is host code not
in this repository; per the spec a typed string parameter that is not a string
(or is missing) is an argument-contract violation that aborts the call. -/
def checkString (n : Nat) (args : List LValue) : Except LuaError String :=
  match argGet args n with
  | .str s => .ok s
  | _ => .error (.typeError n "string")

/-- The Go conversion `int(f)` of a `float64`: truncation toward zero. -/
def truncInt (q : ℚ) : Int :=
  Int.tdiv q.num (q.den : Int)

/-- Modelled from the spec: the gopher-lua helper `LState.CheckInt` is host code not in
this repository; per the spec an integer parameter that is not a number (or is
missing) is an argument-contract violation that aborts the call.  A number is
converted to `int` as Go does, truncating toward zero. -/
def checkInt (n : Nat) (args : List LValue) : Except LuaError Int :=
  match argGet args n with
  | .number q => .ok (truncInt q)
  | _ => .error (.typeError n "number")

/-- Modelled from the spec: the gopher-lua helper `LState.CheckNumber` is host code not
in this repository; per the spec a number parameter that is not a number (or
is missing) is an argument-contract violation that aborts the call. -/
def checkNumber (n : Nat) (args : List LValue) : Except LuaError ℚ :=
  match argGet args n with
  | .number q => .ok q
  | _ => .error (.typeError n "number")

/-- The external black-box collaborators the module delegates to: the RFC 5322
address collaborator (`mail.ParseAddress` succeeded?) and the RE2 regular
expression collaborator (`regexp.Compile`, yielding on success the unanchored
found-anywhere matcher `MatchString`, on failure the compiler error text). -/
structure Collaborators where
  parseAddressOk : String → Bool
  regexpCompile : String → Except String (String → Bool)

/-- `isEmpty` (src/validation.go): nil, the empty string, and a table whose
`ForEach` enumeration counts zero entries are empty; every other value is not. -/
def isEmpty (args : List LValue) : Except LuaError (List LValue) := do
  let value ← checkAny 1 args
  match value with
  | .nil => pure [.boolean true]
  | .str s => pure [.boolean (s == "")]
  | .table entries => pure [.boolean (entries.length == 0)]
  | _ => pure [.boolean false]

/-- `isString` (src/validation.go): the type assertion `value.(lua.LString)`. -/
def isString (args : List LValue) : Except LuaError (List LValue) := do
  let value ← checkAny 1 args
  pure [.boolean (match value with | .str _ => true | _ => false)]

/-- `isNumber` (src/validation.go): the type assertion `value.(lua.LNumber)`. -/
def isNumber (args : List LValue) : Except LuaError (List LValue) := do
  let value ← checkAny 1 args
  pure [.boolean (match value with | .number _ => true | _ => false)]

/-- `isTable` (src/validation.go): the type assertion `value.(*lua.LTable)`. -/
def isTable (args : List LValue) : Except LuaError (List LValue) := do
  let value ← checkAny 1 args
  pure [.boolean (match value with | .table _ => true | _ => false)]

/-- `isBoolean` (src/validation.go): the type assertion `value.(lua.LBool)`. -/
def isBoolean (args : List LValue) : Except LuaError (List LValue) := do
  let value ← checkAny 1 args
  pure [.boolean (match value with | .boolean _ => true | _ => false)]

/-- `isNil` (src/validation.go): the comparison `value == lua.LNil`. -/
def isNil (args : List LValue) : Except LuaError (List LValue) := do
  let value ← checkAny 1 args
  pure [.boolean (match value with | .nil => true | _ => false)]

/-- `validateEmail` (src/validation.go): `mail.ParseAddress(email)` succeeded. -/
def validateEmail (C : Collaborators) (args : List LValue) :
    Except LuaError (List LValue) := do
  let email ← checkString 1 args
  pure [.boolean (C.parseAddressOk email)]

/-- Whether `c` may appear in a URI scheme after its first letter. -/
def isSchemeChar (c : Char) : Bool :=
  c.isAlpha || c.isDigit || c == '+' || c == '-' || c == '.'

/-- After a valid first scheme letter: scan scheme characters until the colon
that terminates the scheme; no colon means no scheme. -/
def schemeTail : List Char → Bool
  | [] => false
  | c :: rest => if c == ':' then true else isSchemeChar c && schemeTail rest

/-- Modelled from the spec: The Go function `net/url.ParseRequestURI` is an external
collaborator not in this repository; per the spec it accepts exactly the
strings that parse as a valid, non-relative request URI — the string must
include a scheme (a letter followed by letters/digits/plus/minus/dot, then a
colon) and thereby be absolute; bare hostnames or paths have no scheme and
are rejected. -/
def parseRequestURIOk (s : String) : Bool :=
  match s.toList with
  | [] => false
  | c :: rest => c.isAlpha && schemeTail rest

/-- `validateURL` (src/validation.go): `url.ParseRequestURI(urlStr)` succeeded. -/
def validateURL (args : List LValue) : Except LuaError (List LValue) := do
  let urlStr ← checkString 1 args
  pure [.boolean (parseRequestURIOk urlStr)]

/-- `validateRegex` (src/validation.go): compile the pattern; on failure push
`(false, error text)`, on success push the single value `MatchString(str)`. -/
def validateRegex (C : Collaborators) (args : List LValue) :
    Except LuaError (List LValue) := do
  let str ← checkString 1 args
  let pattern ← checkString 2 args
  match C.regexpCompile pattern with
  | .error e => pure [.boolean false, .str e]
  | .ok re => pure [.boolean (re str)]

/-- `minLength` (src/validation.go): `len(str) >= min` on Go ints, where
`len` of a Go string is its byte length. -/
def minLength (args : List LValue) : Except LuaError (List LValue) := do
  let str ← checkString 1 args
  let min ← checkInt 2 args
  pure [.boolean (decide ((str.utf8ByteSize : Int) ≥ min))]

/-- `maxLength` (src/validation.go): `len(str) <= max` on Go ints. -/
def maxLength (args : List LValue) : Except LuaError (List LValue) := do
  let str ← checkString 1 args
  let max ← checkInt 2 args
  pure [.boolean (decide ((str.utf8ByteSize : Int) ≤ max))]

/-- `inRange` (src/validation.go): `num >= min && num <= max` on numbers. -/
def inRange (args : List LValue) : Except LuaError (List LValue) := do
  let num ← checkNumber 1 args
  let min ← checkNumber 2 args
  let max ← checkNumber 3 args
  pure [.boolean (decide (num ≥ min) && decide (num ≤ max))]

/-- The names in the `exports` table of src/validation.go. -/
inductive ExportName where
  | is_empty
  | is_string
  | is_number
  | is_table
  | is_boolean
  | is_nil
  | validate_email
  | validate_url
  | validate_regex
  | min_length
  | max_length
  | in_range
deriving DecidableEq

/-- The `exports` dispatch: each name to its function, as registered by
`Loader`. -/
def callExport (C : Collaborators) : ExportName → List LValue →
    Except LuaError (List LValue)
  | .is_empty => isEmpty
  | .is_string => isString
  | .is_number => isNumber
  | .is_table => isTable
  | .is_boolean => isBoolean
  | .is_nil => isNil
  | .validate_email => validateEmail C
  | .validate_url => validateURL
  | .validate_regex => validateRegex C
  | .min_length => minLength
  | .max_length => maxLength
  | .in_range => inRange

/-- The cross-call mutable state of the module.  src/validation.go declares no
package-level mutable variable (its only package-level value, `exports`, is
built once and only read), so the state type is the one-point type. -/
def ModuleState : Type := Unit

/-- A call as observed by the host: it reads the module state, runs the
export, and leaves the module state behind it. -/
def callExportS (C : Collaborators) (σ : ModuleState) (n : ExportName)
    (args : List LValue) : ModuleState × Except LuaError (List LValue) :=
  (σ, callExport C n args)

/-- The Lua-level view of a two-slot return: slot values past the pushed
results read as nil (absent). -/
def luaPair (r : Except LuaError (List LValue)) : Option (LValue × LValue) :=
  match r with
  | .ok l => some (l.getD 0 .nil, l.getD 1 .nil)
  | .error _ => none

/-- Binding a successful host check reduces to running the continuation. -/
@[simp]
theorem ok_bind {α β : Type} (a : α) (f : α → Except LuaError β) :
    (do let x ← Except.ok a; f x : Except LuaError β) = f a :=
  rfl

/-- Collaborators whose address parser rejects everything and whose regular
expression compiler reports every pattern as its own error text; used to
instantiate collaborator-parametric theorems at a concrete input. -/
def trivialCollaborators : Collaborators :=
  ⟨fun _ => false, fun e => .error e⟩

/-- A string has byte length zero exactly when it is the empty string. -/
theorem utf8ByteSize_eq_zero_iff (s : String) : s.utf8ByteSize = 0 ↔ s = "" := by
  constructor
  · intro h
    cases s with
    | mk data =>
      cases data with
      | nil => rfl
      | cons c cs =>
        exfalso
        have hp : 0 < c.utf8Size := Char.utf8Size_pos c
        simp [String.utf8ByteSize, String.utf8ByteSize.go] at h
        omega
  · intro h
    subst h
    rfl

/-- C1: for every script value and every type tag among string, number,
table, boolean and nil, the classifier answers true exactly when the value
carries that tag, with no coercion; in particular the string "42" is not a
number and the number 42 is not a string. -/
theorem classifier_exact_tags (v : LValue) :
    isString [v] = .ok [.boolean (decide (v.tag = Tag.str))] ∧
    isNumber [v] = .ok [.boolean (decide (v.tag = Tag.number))] ∧
    isTable [v] = .ok [.boolean (decide (v.tag = Tag.table))] ∧
    isBoolean [v] = .ok [.boolean (decide (v.tag = Tag.boolean))] ∧
    isNil [v] = .ok [.boolean (decide (v.tag = Tag.nil))] ∧
    isNumber [.str "42"] = .ok [.boolean false] ∧
    isString [.number 42] = .ok [.boolean false] := by
  refine ⟨?_, ?_, ?_, ?_, ?_, rfl, rfl⟩ <;> cases v <;> rfl

/-- The observable verdict of a classifier call: true exactly when the call
returned the single boolean true. -/
def returnsTrue (r : Except LuaError (List LValue)) : Bool :=
  match r with
  | .ok [.boolean b] => b
  | _ => false

/-- C10: the five type classifiers are mutually exclusive: on any script
value at most one of them returns true. -/
theorem classifiers_mutually_exclusive (v : LValue) :
    ([returnsTrue (isString [v]), returnsTrue (isNumber [v]),
      returnsTrue (isTable [v]), returnsTrue (isBoolean [v]),
      returnsTrue (isNil [v])].count true ≤ 1) := by
  cases v <;> first | exact Nat.le.refl | exact Nat.zero_le 1

/-- C5: every classifier and the emptiness check, given exactly one argument
of any type, returns a single boolean and never aborts; an explicitly passed
absent value is classified normally, and in particular satisfies the nil
classifier. -/
theorem classifiers_total_on_one_argument (v : LValue) :
    (∃ b, isString [v] = .ok [.boolean b]) ∧
    (∃ b, isNumber [v] = .ok [.boolean b]) ∧
    (∃ b, isTable [v] = .ok [.boolean b]) ∧
    (∃ b, isBoolean [v] = .ok [.boolean b]) ∧
    (∃ b, isNil [v] = .ok [.boolean b]) ∧
    (∃ b, isEmpty [v] = .ok [.boolean b]) ∧
    isNil [.nil] = .ok [.boolean true] := by
  refine ⟨?_, ?_, ?_, ?_, ?_, ?_, rfl⟩ <;> cases v <;> exact ⟨_, rfl⟩

/-- On a single argument the emptiness check reduces to a match on the
shape of the value. -/
theorem isEmpty_ok (v : LValue) :
    isEmpty [v] = .ok [.boolean (match v with
      | .nil => true
      | .str s => s == ""
      | .table es => es.length == 0
      | _ => false)] := by
  cases v <;> rfl

/-- C2: the emptiness check answers true exactly on the absent value, on
strings of byte length zero, and on tables whose enumeration yields zero
entries; every other value, including the number 0 and the boolean false,
is reported non-empty, and the check always returns a boolean. -/
theorem is_empty_characterization (v : LValue) :
    (isEmpty [v] = .ok [.boolean true] ↔
      v = .nil ∨ (∃ s, v = .str s ∧ s.utf8ByteSize = 0) ∨
        (∃ es, v = .table es ∧ es.length = 0)) ∧
    (∃ b, isEmpty [v] = .ok [.boolean b]) ∧
    isEmpty [.number 0] = .ok [.boolean false] ∧
    isEmpty [.boolean false] = .ok [.boolean false] := by
  refine ⟨?_, ?_, rfl, rfl⟩
  · cases v <;>
      simp [isEmpty_ok, utf8ByteSize_eq_zero_iff, List.length_eq_zero]
  · cases v <;> exact ⟨_, rfl⟩

/-- C6: the URL validator answers exactly the verdict of the request-URI
parser, which requires a scheme and rejects bare hostnames and plain
paths; the four verdicts documented in the spec hold. -/
theorem validate_url_characterization (s : String) :
    validateURL [.str s] = .ok [.boolean (parseRequestURIOk s)] ∧
    parseRequestURIOk "http://example.com" = true ∧
    parseRequestURIOk "https://example.com/path" = true ∧
    parseRequestURIOk "example.com" = false ∧
    parseRequestURIOk "not-a-url" = false :=
  ⟨rfl, by decide, by decide, by decide, by decide⟩

/-- Truncating the rational image of an integer gives back the integer. -/
theorem truncInt_intCast (m : Int) : truncInt (m : ℚ) = m := by
  simp [truncInt]

/-- C7: the length validators compare the byte length of the string with the
bound, inclusively on both sides; byte length, not rune count, as the
two-byte one-rune string shows. -/
theorem length_bounds_byte_inclusive (s : String) (m : Int) :
    minLength [.str s, .number (m : ℚ)] =
      .ok [.boolean (decide ((s.utf8ByteSize : Int) ≥ m))] ∧
    maxLength [.str s, .number (m : ℚ)] =
      .ok [.boolean (decide ((s.utf8ByteSize : Int) ≤ m))] ∧
    minLength [.str "é", .number 2] = .ok [.boolean true] ∧
    "é".length = 1 ∧ "é".utf8ByteSize = 2 := by
  have h2 : checkInt 2 [.str s, .number (m : ℚ)] = .ok m := by
    simp [checkInt, argGet, truncInt_intCast]
  have h1 : checkString 1 [.str s, .number (m : ℚ)] = .ok s := rfl
  refine ⟨?_, ?_, rfl, by decide, by decide⟩ <;>
    simp [minLength, maxLength, h1, h2]

/-- C8: the range validator answers true exactly when the number is between
the bounds, inclusively on both ends, as the two boundary checks show. -/
theorem in_range_inclusive (n lo hi : ℚ) :
    inRange [.number n, .number lo, .number hi] =
      .ok [.boolean (decide (lo ≤ n ∧ n ≤ hi))] ∧
    inRange [.number 1, .number 1, .number 10] = .ok [.boolean true] ∧
    inRange [.number 10, .number 1, .number 10] = .ok [.boolean true] := by
  refine ⟨?_, rfl, rfl⟩
  simp [inRange, checkNumber, argGet]

/-- C3: for string arguments the regex validator never aborts and its
two-slot Lua return is (false, the compiler error text) exactly when the
pattern fails to compile — the first slot the boolean false, never absent,
and the second slot a string, never absent — and (the found-anywhere match
verdict on the subject, absent) when the pattern compiles; so the second
slot alone separates a broken pattern from a non-match. -/
theorem validate_regex_two_slot (C : Collaborators) (s pat : String) :
    luaPair (validateRegex C [.str s, .str pat]) =
      some (match C.regexpCompile pat with
        | .error e => (LValue.boolean false, LValue.str e)
        | .ok re => (LValue.boolean (re s), LValue.nil)) := by
  cases h : C.regexpCompile pat <;>
    simp [validateRegex, luaPair, checkString, argGet, h]

/-- C9: every exported function is deterministic and stateless: a call
leaves the module state unchanged, and its result does not depend on the
module state, only on the arguments. -/
theorem exports_stateless_deterministic (C : Collaborators)
    (σ τ : ModuleState) (n : ExportName) (args : List LValue) :
    (callExportS C σ n args).1 = σ ∧
    (callExportS C σ n args).2 = (callExportS C τ n args).2 :=
  ⟨rfl, rfl⟩

/-- C4: a typed validator called with an argument that is not of its
declared type aborts abruptly with an argument-contract error; it never
returns at all, so in particular it never returns a false validation
verdict. -/
theorem typed_argument_contract (C : Collaborators) (v w x y z : LValue) :
    (v.tag ≠ Tag.str → errored (validateEmail C [v]) = true) ∧
    (v.tag ≠ Tag.str → errored (validateURL [v]) = true) ∧
    (v.tag ≠ Tag.str ∨ w.tag ≠ Tag.str →
      errored (validateRegex C [v, w]) = true) ∧
    (v.tag ≠ Tag.str ∨ w.tag ≠ Tag.number →
      errored (minLength [v, w]) = true) ∧
    (v.tag ≠ Tag.str ∨ w.tag ≠ Tag.number →
      errored (maxLength [v, w]) = true) ∧
    (x.tag ≠ Tag.number ∨ y.tag ≠ Tag.number ∨ z.tag ≠ Tag.number →
      errored (inRange [x, y, z]) = true) := by
  refine ⟨?_, ?_, ?_, ?_, ?_, ?_⟩
  · intro h
    cases v <;> first | rfl | exact absurd rfl h
  · intro h
    cases v <;> first | rfl | exact absurd rfl h
  · rintro (h | h)
    · cases v <;> first | rfl | exact absurd rfl h
    · cases v <;> first | rfl |
        (cases w <;> first | rfl | exact absurd rfl h)
  · rintro (h | h)
    · cases v <;> first | rfl | exact absurd rfl h
    · cases v <;> first | rfl |
        (cases w <;> first | rfl | exact absurd rfl h)
  · rintro (h | h)
    · cases v <;> first | rfl | exact absurd rfl h
    · cases v <;> first | rfl |
        (cases w <;> first | rfl | exact absurd rfl h)
  · rintro (h | h | h)
    · cases x <;> first | rfl | exact absurd rfl h
    · cases x <;> first | rfl |
        (cases y <;> first | rfl | exact absurd rfl h)
    · cases x <;> first | rfl |
        (cases y <;> first | rfl |
          (cases z <;> first | rfl | exact absurd rfl h))

/-- Witness for C4: concrete wrong-type calls on each typed validator all
abort with an argument-contract error. -/
theorem typed_argument_contract_witness :
    errored (validateEmail trivialCollaborators [.number 7]) = true ∧
    errored (validateURL [.boolean true]) = true ∧
    errored (validateRegex trivialCollaborators [.str "a", .nil]) = true ∧
    errored (minLength [.str "a", .str "3"]) = true ∧
    errored (maxLength [.nil, .number 3]) = true ∧
    errored (inRange [.number 1, .str "2", .number 3]) = true :=
  ⟨(typed_argument_contract trivialCollaborators (.number 7) .nil .nil .nil
      .nil).1 (by decide),
   (typed_argument_contract trivialCollaborators (.boolean true) .nil .nil
      .nil .nil).2.1 (by decide),
   (typed_argument_contract trivialCollaborators (.str "a") .nil .nil .nil
      .nil).2.2.1 (Or.inr (by decide)),
   (typed_argument_contract trivialCollaborators (.str "a") (.str "3") .nil
      .nil .nil).2.2.2.1 (Or.inr (by decide)),
   (typed_argument_contract trivialCollaborators .nil (.number 3) .nil .nil
      .nil).2.2.2.2.1 (Or.inl (by decide)),
   (typed_argument_contract trivialCollaborators .nil .nil (.number 1)
      (.str "2") (.number 3)).2.2.2.2.2 (Or.inr (Or.inl (by decide)))⟩

